import Mathlib

/-!
Verification development for the argument builder of a docker build GitHub
action (source file: src/context.ts).  The builder turns a configuration
record plus a set of external collaborators (version oracles, secret
resolvers, exporter detectors, path resolvers) into an ordered sequence of
command-line tokens and a list of advisory warnings.

The embedding keeps the emitted tokens structured: a pushed pair
`args.push(flagName, value)` becomes `Tok.flag flagName value` and a single
pushed token becomes `Tok.bare`.  Rendering a token list back to the raw
string sequence of the program is `flatten`.  Warnings are structured by
their call site; the fallible secret resolvers return `Except`, and the one
resolver call the source does not wrap in try/catch (the synthesized
GIT_AUTH_TOKEN secret, context.ts line 173) propagates as `Except.error`.
-/

namespace BuildPushAction

/-- One emitted command-line token group: a flag with its value argument
(`args.push(name, value)` in the source) or a bare token
(`args.push(token)`). -/
inductive Tok where
  | flag (name val : String)
  | bare (s : String)
  deriving DecidableEq, Repr

/-- Rendering of a token group to the raw string tokens of the program. -/
def Tok.render : Tok → List String
  | .flag n v => [n, v]
  | .bare s => [s]

/-- Raw string token sequence of a structured token list. -/
def flatten : List Tok → List String
  | [] => []
  | t :: ts => t.render ++ flatten ts

/-- Whether a token group is a flag with the given flag name. -/
def Tok.isNamed (n : String) : Tok → Bool
  | .flag m _ => m == n
  | .bare _ => false

/-- The sub-sequence of flags with a given name. -/
def filterNamed (n : String) (l : List Tok) : List Tok :=
  l.filter (Tok.isNamed n)

/-- Number of flags with a given name. -/
def flagCount (n : String) (l : List Tok) : Nat :=
  (filterNamed n l).length

/-- Advisory warnings, identified by their call site in the source.
`secretFailed` carries the message of the error thrown by a secret
resolver (context.ts lines 132, 162, 169); the three fixed warnings are the
version-gate messages of lines 107, 117 and 156. -/
inductive Warn where
  | annotationsIgnored
  | buildContextsIgnored
  | attestsIgnored
  | secretFailed (msg : String)
  deriving DecidableEq, Repr

/-- Configuration record, mirroring the `Inputs` interface of context.ts
(lines 10-43). -/
structure Inputs where
  addHosts : List String
  allow : List String
  annotations : List String
  attests : List String
  buildArgs : List String
  buildContexts : List String
  builder : String
  cacheFrom : List String
  cacheTo : List String
  cgroupParent : String
  context : String
  file : String
  labels : List String
  load : Bool
  network : String
  noCache : Bool
  noCacheFilters : List String
  outputs : List String
  platforms : List String
  provenance : String
  pull : Bool
  push : Bool
  sbom : String
  secrets : List String
  secretEnvs : List String
  secretFiles : List String
  shmSize : String
  ssh : List String
  tags : List String
  target : String
  ulimit : List String
  githubToken : String
  deriving DecidableEq, Repr

/-- External collaborators of the builder: the capability oracle
(`toolkit.buildx.versionSatisfies`, `toolkit.buildkit.versionSatisfies`),
the context collaborator (`Context.gitContext()`, repository visibility
from `GitHub.context.payload.repository?.private`), and the toolkit
`Build` helpers used by context.ts.  Each field is the abstract response
function of the corresponding external call. -/
structure Collab where
  buildxVersionSatisfies : String → Bool
  buildkitVersionSatisfies : String → String → Bool
  gitContext : String
  repoPrivate : Option Bool
  hasLocalExporter : List String → Bool
  hasTarExporter : List String → Bool
  hasDockerExporter : List String → Bool → Bool
  hasGitAuthTokenSecret : List String → Bool
  hasAttestationType : String → String → Bool
  resolveAttestationAttrs : String → String
  resolveProvenanceAttrs : String → String
  resolveSecretEnv : String → Except String String
  resolveSecretString : String → Except String String
  resolveSecretFile : String → Except String String
  getImageIDFilePath : String
  getMetadataFilePath : String

/-- Emitted args together with the warnings issued while producing them. -/
structure Seg where
  args : List Tok
  warnings : List Warn
  deriving DecidableEq, Repr

/-- One flag/value pair per list entry, in input order
(`Util.asyncForEach(list, v => args.push(name, v))`). -/
def pairFlags (name : String) (l : List String) : List Tok :=
  l.map (fun v => Tok.flag name v)

/-- Per-entry fallible secret resolution with warn-and-skip
(context.ts lines 128-134, 158-164, 165-171): a resolved entry yields one
`--secret` flag, a failed entry yields one warning and is omitted. -/
def secretFlags (resolve : String → Except String String) : List String → Seg
  | [] => { args := [], warnings := [] }
  | e :: rest =>
    let r := secretFlags resolve rest
    match resolve e with
    | .ok v => { args := Tok.flag "--secret" v :: r.args, warnings := r.warnings }
    | .error m => { args := r.args, warnings := Warn.secretFailed m :: r.warnings }

/-- context.ts lines 99-101. -/
def allowArgs (i : Inputs) : List Tok :=
  if i.allow.length > 0 then
    [Tok.flag "--allow" (String.intercalate "," i.allow)]
  else []

/-- context.ts lines 102-108: version-gated annotation flags. -/
def annotationArgs (i : Inputs) (c : Collab) : Seg :=
  if c.buildxVersionSatisfies ">=0.12.0" = true then
    { args := pairFlags "--annotation" i.annotations, warnings := [] }
  else if i.annotations.length > 0 then
    { args := [], warnings := [Warn.annotationsIgnored] }
  else { args := [], warnings := [] }

/-- context.ts lines 112-118: version-gated build-context flags. -/
def buildContextArgs (i : Inputs) (c : Collab) : Seg :=
  if c.buildxVersionSatisfies ">=0.8.0" = true then
    { args := pairFlags "--build-context" i.buildContexts, warnings := [] }
  else if i.buildContexts.length > 0 then
    { args := [], warnings := [Warn.buildContextsIgnored] }
  else { args := [], warnings := [] }

/-- context.ts lines 125-127. -/
def cgroupArgs (i : Inputs) : List Tok :=
  if i.cgroupParent ≠ "" then [Tok.flag "--cgroup-parent" i.cgroupParent] else []

/-- context.ts lines 135-137. -/
def fileArgs (i : Inputs) : List Tok :=
  if i.file ≠ "" then [Tok.flag "--file" i.file] else []

/-- context.ts lines 138-140: the image-ID file decision. -/
def iidfileArgs (i : Inputs) (c : Collab) : List Tok :=
  if c.hasLocalExporter i.outputs = false ∧ c.hasTarExporter i.outputs = false ∧
      (i.platforms.length = 0 ∨ c.buildxVersionSatisfies ">=0.4.2" = true) then
    [Tok.flag "--iidfile" c.getImageIDFilePath]
  else []

/-- context.ts lines 150-152. -/
def platformArgs (i : Inputs) : List Tok :=
  if i.platforms.length > 0 then
    [Tok.flag "--platform" (String.intercalate "," i.platforms)]
  else []

/-- context.ts lines 175-177. -/
def shmArgs (i : Inputs) : List Tok :=
  if i.shmSize ≠ "" then [Tok.flag "--shm-size" i.shmSize] else []

/-- context.ts lines 184-186. -/
def targetArgs (i : Inputs) : List Tok :=
  if i.target ≠ "" then [Tok.flag "--target" i.target] else []

/-- context.ts lines 219-266 (`getAttestArgs`): attestation flags with the
precedence of explicit `provenance` / `sbom` inputs over same-typed entries
of the generic `attests` list, and the default provenance injection.
`provenanceSet` of the source equals `i.provenance ≠ ""` and `sbomSet`
equals `i.sbom ≠ ""`. -/
def getAttestArgs (i : Inputs) (c : Collab) : List Tok :=
  let hasAttestProvenance := i.attests.any (fun a => c.hasAttestationType "provenance" a)
  let provenancePart : List Tok :=
    if i.provenance ≠ "" then
      [Tok.flag "--attest" (c.resolveAttestationAttrs ("type=provenance," ++ i.provenance))]
    else if hasAttestProvenance = false ∧
        c.buildkitVersionSatisfies i.builder ">=0.11.0" = true ∧
        c.hasDockerExporter i.outputs i.load = false then
      if c.repoPrivate.getD false = true then
        [Tok.flag "--attest" ("type=provenance," ++ c.resolveProvenanceAttrs "mode=min,inline-only=true")]
      else
        [Tok.flag "--attest" ("type=provenance," ++ c.resolveProvenanceAttrs "mode=max")]
    else []
  let sbomPart : List Tok :=
    if i.sbom ≠ "" then
      [Tok.flag "--attest" (c.resolveAttestationAttrs ("type=sbom," ++ i.sbom))]
    else []
  let listPart : List Tok :=
    i.attests.filterMap (fun a =>
      if c.hasAttestationType "provenance" a = false ∧ c.hasAttestationType "sbom" a = false then
        some (Tok.flag "--attest" (c.resolveAttestationAttrs a))
      else if i.provenance = "" ∧ c.hasAttestationType "provenance" a = true then
        some (Tok.flag "--attest" (c.resolveProvenanceAttrs a))
      else if i.sbom = "" ∧ c.hasAttestationType "sbom" a = true then
        some (Tok.flag "--attest" a)
      else none)
  provenancePart ++ sbomPart ++ listPart

/-- context.ts lines 153-157: attestation flags are gated on buildx
version 0.10.0. -/
def attestSeg (i : Inputs) (c : Collab) : Seg :=
  if c.buildxVersionSatisfies ">=0.10.0" = true then
    { args := getAttestArgs i c, warnings := [] }
  else
    { args := [], warnings := [Warn.attestsIgnored] }

/-- Byte-wise string prefix test, the semantics of the JavaScript
`context.startsWith(Context.gitContext())` call of context.ts line 172
(written over character lists so that it evaluates in the kernel). -/
def strStartsWith (s pre : String) : Bool :=
  pre.data.isPrefixOf s.data

/-- context.ts lines 172-174: the synthesized GIT_AUTH_TOKEN secret.  The
resolver call here is not wrapped in try/catch in the source, so a failure
propagates. -/
def gitAuthSeg (i : Inputs) (context : String) (c : Collab) : Except String (List Tok) :=
  if i.githubToken ≠ "" ∧ c.hasGitAuthTokenSecret i.secrets = false ∧
      strStartsWith context c.gitContext = true then
    (c.resolveSecretString ("GIT_AUTH_TOKEN=" ++ i.githubToken)).map
      (fun v => [Tok.flag "--secret" v])
  else Except.ok []

/-- The build-flag phase output for a given git-auth segment `g`: args are
the concatenation of the per-step segments of context.ts lines 94-191 in
source order; warnings are collected in call order (annotations line 107,
build-contexts line 117, secret-envs line 132, attests line 156, secrets
line 162, secret-files line 169). -/
def buildSeg (i : Inputs) (c : Collab) (g : List Tok) : Seg :=
  { args :=
        [Tok.bare "build"]
        ++ pairFlags "--add-host" i.addHosts
        ++ allowArgs i
        ++ (annotationArgs i c).args
        ++ pairFlags "--build-arg" i.buildArgs
        ++ (buildContextArgs i c).args
        ++ pairFlags "--cache-from" i.cacheFrom
        ++ pairFlags "--cache-to" i.cacheTo
        ++ cgroupArgs i
        ++ (secretFlags c.resolveSecretEnv i.secretEnvs).args
        ++ fileArgs i
        ++ iidfileArgs i c
        ++ pairFlags "--label" i.labels
        ++ pairFlags "--no-cache-filter" i.noCacheFilters
        ++ pairFlags "--output" i.outputs
        ++ platformArgs i
        ++ (attestSeg i c).args
        ++ (secretFlags c.resolveSecretString i.secrets).args
        ++ (secretFlags c.resolveSecretFile i.secretFiles).args
        ++ g
        ++ shmArgs i
        ++ pairFlags "--ssh" i.ssh
        ++ pairFlags "--tag" i.tags
        ++ targetArgs i
        ++ pairFlags "--ulimit" i.ulimit,
      warnings :=
        (annotationArgs i c).warnings
        ++ (buildContextArgs i c).warnings
        ++ (secretFlags c.resolveSecretEnv i.secretEnvs).warnings
        ++ (attestSeg i c).warnings
        ++ (secretFlags c.resolveSecretString i.secrets).warnings
        ++ (secretFlags c.resolveSecretFile i.secretFiles).warnings }

/-- context.ts lines 94-191 (`getBuildArgs`): the build-flag phase.  The
only fallible step is the synthesized GIT_AUTH_TOKEN resolution of
line 173, whose failure propagates. -/
def getBuildArgs (i : Inputs) (context : String) (c : Collab) : Except String Seg :=
  (gitAuthSeg i context c).map (buildSeg i c)

/-- context.ts lines 193-217 (`getCommonArgs`): the common/global control
flags. -/
def getCommonArgs (i : Inputs) (c : Collab) : List Tok :=
  (if i.builder ≠ "" then [Tok.flag "--builder" i.builder] else [])
  ++ (if i.load = true then [Tok.bare "--load"] else [])
  ++ (if c.buildxVersionSatisfies ">=0.6.0" = true then
        [Tok.flag "--metadata-file" c.getMetadataFilePath] else [])
  ++ (if i.network ≠ "" then [Tok.flag "--network" i.network] else [])
  ++ (if i.noCache = true then [Tok.bare "--no-cache"] else [])
  ++ (if i.pull = true then [Tok.bare "--pull"] else [])
  ++ (if i.push = true then [Tok.bare "--push"] else [])

/-- Replacement of every occurrence of a pattern in a character list,
structurally recursive on a fuel bound (the length of the scanned list
suffices, since every step consumes at least one character). -/
def replaceAllFuel : Nat → List Char → List Char → List Char → List Char
  | 0, _, _, s => s
  | _, _, _, [] => []
  | fuel + 1, pat, repl, ch :: rest =>
    if pat.isPrefixOf (ch :: rest) ∧ pat ≠ [] then
      repl ++ replaceAllFuel fuel pat repl ((ch :: rest).drop pat.length)
    else
      ch :: replaceAllFuel fuel pat repl rest

/-- Modelled from the spec: the handlebars template expansion of
context.ts lines 83-85 is performed by an external templating library that
is not part of this repository; the spec reduces it to a single
named-placeholder substitution rule, every occurrence of the placeholder
(spelled with two braces around the word defaultContext) being replaced by
the default source-control context. -/
def expandContext (tpl gitCtx : String) : String :=
  String.mk (replaceAllFuel tpl.data.length "\x7b\x7bdefaultContext\x7d\x7d".data gitCtx.data tpl.data)

/-- context.ts lines 82-92 (`getArgs`): build flags, then common flags,
then the expanded context as final positional token. -/
def getArgs (i : Inputs) (c : Collab) : Except String Seg :=
  let context := expandContext i.context c.gitContext
  (getBuildArgs i context c).map (fun b =>
    { args := b.args ++ getCommonArgs i c ++ [Tok.bare context],
      warnings := b.warnings })

/-! Concrete fixtures: a small collaborator model and configurations used
to evaluate the builder on closed inputs. -/

/-- A concrete default source-control context. -/
def gctx : String := "https://github.com/me/repo.git#main"

/-- A concrete collaborator model: all version gates satisfied, no
local/tar/docker exporters, identity attribute resolvers, secrets resolve
to themselves, a git-auth-token detector that looks for the
GIT_AUTH_TOKEN= prefix, and an attestation-type detector that looks for a
type= prefix. -/
def collab0 : Collab where
  buildxVersionSatisfies := fun _ => true
  buildkitVersionSatisfies := fun _ _ => true
  gitContext := gctx
  repoPrivate := none
  hasLocalExporter := fun _ => false
  hasTarExporter := fun _ => false
  hasDockerExporter := fun _ _ => false
  hasGitAuthTokenSecret := fun l => l.any (fun s => strStartsWith s "GIT_AUTH_TOKEN=")
  hasAttestationType := fun t a => strStartsWith a ("type=" ++ t)
  resolveAttestationAttrs := fun s => s
  resolveProvenanceAttrs := fun s => s
  resolveSecretEnv := fun s => Except.ok s
  resolveSecretString := fun s => Except.ok s
  resolveSecretFile := fun s => Except.ok s
  getImageIDFilePath := "/tmp/iidfile"
  getMetadataFilePath := "/tmp/metadata"

/-- The empty configuration. -/
def i0 : Inputs where
  addHosts := []
  allow := []
  annotations := []
  attests := []
  buildArgs := []
  buildContexts := []
  builder := ""
  cacheFrom := []
  cacheTo := []
  cgroupParent := ""
  context := ""
  file := ""
  labels := []
  load := false
  network := ""
  noCache := false
  noCacheFilters := []
  outputs := []
  platforms := []
  provenance := ""
  pull := false
  push := false
  sbom := ""
  secrets := []
  secretEnvs := []
  secretFiles := []
  shmSize := ""
  ssh := []
  tags := []
  target := ""
  ulimit := []
  githubToken := ""

/-- Explicit provenance together with a provenance-typed attests entry. -/
def i1 : Inputs := { i0 with provenance := "mode=max", attests := ["type=provenance,mode=min"] }

/-- Collaborator reporting a private repository. -/
def collabPriv : Collab := { collab0 with repoPrivate := some true }

/-- Collaborator whose frontend does not satisfy the 0.12.0 gate. -/
def collabOld : Collab := { collab0 with buildxVersionSatisfies := fun r => !(r == ">=0.12.0") }

/-- Collaborator whose plain secret-string resolver always fails. -/
def collabErr : Collab := { collab0 with resolveSecretString := fun _ => Except.error "boom" }

/-- A resolver failing on entry E1 and succeeding elsewhere. -/
def rX : String → Except String String := fun e => if e = "E1" then Except.error "boom" else Except.ok e

/-- Configuration with a GitHub token only. -/
def iTok : Inputs := { i0 with githubToken := "tok" }

/-- Configuration with one annotation entry. -/
def i6 : Inputs := { i0 with annotations := ["a=b"] }

/-- Configuration with several multi-valued inputs. -/
def i7 : Inputs :=
  { i0 with addHosts := ["h1", "h2"], buildArgs := ["X=1"], labels := ["l1"],
            tags := ["t1", "t2"], ssh := ["s1"], ulimit := ["u1"] }

/-- Configuration whose context references the defaultContext placeholder
with a subdirectory suffix. -/
def i9 : Inputs := { i0 with context := "\x7b\x7bdefaultContext\x7d\x7d:sub" }

/-- Configuration supplying a git auth token through the
secret-environment channel and a GitHub token, with an empty plain
secrets list. -/
def i10 : Inputs := { i0 with githubToken := "ghtok", secretEnvs := ["GIT_AUTH_TOKEN=MY_ENV"] }

/-- Build output of `i0` against `collab0`. -/
def seg0 : Seg :=
  { args := [Tok.bare "build", Tok.flag "--iidfile" "/tmp/iidfile",
             Tok.flag "--attest" "type=provenance,mode=max"],
    warnings := [] }

/-- Build output of `iTok` at context `gctx` against `collab0`. -/
def segTok : Seg :=
  { args := [Tok.bare "build", Tok.flag "--iidfile" "/tmp/iidfile",
             Tok.flag "--attest" "type=provenance,mode=max",
             Tok.flag "--secret" "GIT_AUTH_TOKEN=tok"],
    warnings := [] }

/-- Build output of `i6` against `collab0`. -/
def seg6a : Seg :=
  { args := [Tok.bare "build", Tok.flag "--annotation" "a=b",
             Tok.flag "--iidfile" "/tmp/iidfile",
             Tok.flag "--attest" "type=provenance,mode=max"],
    warnings := [] }

/-- Build output of `i6` against `collabOld`. -/
def seg6b : Seg :=
  { args := [Tok.bare "build", Tok.flag "--iidfile" "/tmp/iidfile",
             Tok.flag "--attest" "type=provenance,mode=max"],
    warnings := [Warn.annotationsIgnored] }

/-- Build output of `i7` against `collab0`. -/
def seg7 : Seg :=
  { args := [Tok.bare "build",
             Tok.flag "--add-host" "h1", Tok.flag "--add-host" "h2",
             Tok.flag "--build-arg" "X=1",
             Tok.flag "--iidfile" "/tmp/iidfile",
             Tok.flag "--label" "l1",
             Tok.flag "--attest" "type=provenance,mode=max",
             Tok.flag "--ssh" "s1",
             Tok.flag "--tag" "t1", Tok.flag "--tag" "t2",
             Tok.flag "--ulimit" "u1"],
    warnings := [] }

/-- Full output of `i9` against `collab0`. -/
def r9 : Seg :=
  { args := [Tok.bare "build", Tok.flag "--iidfile" "/tmp/iidfile",
             Tok.flag "--attest" "type=provenance,mode=max",
             Tok.flag "--metadata-file" "/tmp/metadata",
             Tok.bare "https://github.com/me/repo.git#main:sub"],
    warnings := [] }

/-- Build output of `i10` at context `gctx` against `collab0`. -/
def seg10 : Seg :=
  { args := [Tok.bare "build",
             Tok.flag "--secret" "GIT_AUTH_TOKEN=MY_ENV",
             Tok.flag "--iidfile" "/tmp/iidfile",
             Tok.flag "--attest" "type=provenance,mode=max",
             Tok.flag "--secret" "GIT_AUTH_TOKEN=ghtok"],
    warnings := [] }

/-! Helper lemmas about rendering, flag filtering and the segment
functions. -/

lemma flatten_append (l₁ l₂ : List Tok) :
    flatten (l₁ ++ l₂) = flatten l₁ ++ flatten l₂ := by
  induction l₁ with
  | nil => rfl
  | cons t ts ih => simp [flatten, ih, List.append_assoc]

lemma flatten_cons (t : Tok) (ts : List Tok) :
    flatten (t :: ts) = t.render ++ flatten ts := rfl

@[simp] lemma filterNamed_nil (n : String) : filterNamed n [] = [] := rfl

@[simp] lemma filterNamed_append (n : String) (l₁ l₂ : List Tok) :
    filterNamed n (l₁ ++ l₂) = filterNamed n l₁ ++ filterNamed n l₂ := by
  simp [filterNamed, List.filter_append]

@[simp] lemma filterNamed_cons_flag (n m v : String) (l : List Tok) :
    filterNamed n (Tok.flag m v :: l) =
      if (m == n) = true then Tok.flag m v :: filterNamed n l else filterNamed n l := by
  simp [filterNamed, List.filter_cons, Tok.isNamed]

@[simp] lemma filterNamed_cons_bare (n s : String) (l : List Tok) :
    filterNamed n (Tok.bare s :: l) = filterNamed n l := by
  simp [filterNamed, List.filter_cons, Tok.isNamed]

@[simp] lemma pairFlags_nil (n : String) : pairFlags n [] = [] := rfl

@[simp] lemma pairFlags_cons (n v : String) (l : List String) :
    pairFlags n (v :: l) = Tok.flag n v :: pairFlags n l := rfl

@[simp] lemma filterNamed_pairFlags_ne {n m : String} (h : (m == n) = false)
    (l : List String) : filterNamed n (pairFlags m l) = [] := by
  induction l with
  | nil => rfl
  | cons v vs ih => simp [h, ih]

@[simp] lemma filterNamed_pairFlags_self (n : String) (l : List String) :
    filterNamed n (pairFlags n l) = pairFlags n l := by
  induction l with
  | nil => rfl
  | cons v vs ih => simp [ih]

lemma flatten_pairFlags_length (n : String) (l : List String) :
    (flatten (pairFlags n l)).length = 2 * l.length := by
  induction l with
  | nil => rfl
  | cons v vs ih =>
    show (Tok.render (Tok.flag n v) ++ flatten (pairFlags n vs)).length = 2 * (v :: vs).length
    rw [List.length_append, ih]
    simp [Tok.render]
    omega

@[simp] lemma filterNamed_allowArgs {n : String} (h : ("--allow" == n) = false)
    (i : Inputs) : filterNamed n (allowArgs i) = [] := by
  unfold allowArgs; split <;> simp [h]

@[simp] lemma filterNamed_annotationArgs {n : String}
    (h : ("--annotation" == n) = false) (i : Inputs) (c : Collab) :
    filterNamed n (annotationArgs i c).args = [] := by
  unfold annotationArgs; split
  · simp [h]
  · split <;> simp

@[simp] lemma filterNamed_buildContextArgs {n : String}
    (h : ("--build-context" == n) = false) (i : Inputs) (c : Collab) :
    filterNamed n (buildContextArgs i c).args = [] := by
  unfold buildContextArgs; split
  · simp [h]
  · split <;> simp

@[simp] lemma filterNamed_cgroupArgs {n : String}
    (h : ("--cgroup-parent" == n) = false) (i : Inputs) :
    filterNamed n (cgroupArgs i) = [] := by
  unfold cgroupArgs; split <;> simp [h]

@[simp] lemma filterNamed_fileArgs {n : String} (h : ("--file" == n) = false)
    (i : Inputs) : filterNamed n (fileArgs i) = [] := by
  unfold fileArgs; split <;> simp [h]

@[simp] lemma filterNamed_iidfileArgs {n : String} (h : ("--iidfile" == n) = false)
    (i : Inputs) (c : Collab) : filterNamed n (iidfileArgs i c) = [] := by
  unfold iidfileArgs; split <;> simp [h]

@[simp] lemma filterNamed_platformArgs {n : String} (h : ("--platform" == n) = false)
    (i : Inputs) : filterNamed n (platformArgs i) = [] := by
  unfold platformArgs; split <;> simp [h]

@[simp] lemma filterNamed_shmArgs {n : String} (h : ("--shm-size" == n) = false)
    (i : Inputs) : filterNamed n (shmArgs i) = [] := by
  unfold shmArgs; split <;> simp [h]

@[simp] lemma filterNamed_targetArgs {n : String} (h : ("--target" == n) = false)
    (i : Inputs) : filterNamed n (targetArgs i) = [] := by
  unfold targetArgs; split <;> simp [h]

lemma secretFlags_args_eq (resolve : String → Except String String) (l : List String) :
    (secretFlags resolve l).args =
      l.filterMap (fun e => match resolve e with
        | .ok v => some (Tok.flag "--secret" v)
        | .error _ => none) := by
  induction l with
  | nil => rfl
  | cons e es ih =>
    cases hre : resolve e <;> simp [secretFlags, hre, ih]

lemma secretFlags_warnings_eq (resolve : String → Except String String) (l : List String) :
    (secretFlags resolve l).warnings =
      l.filterMap (fun e => match resolve e with
        | .ok _ => none
        | .error m => some (Warn.secretFailed m)) := by
  induction l with
  | nil => rfl
  | cons e es ih =>
    cases hre : resolve e <;> simp [secretFlags, hre, ih]

@[simp] lemma filterNamed_secretFlags_ne {n : String} (h : ("--secret" == n) = false)
    (resolve : String → Except String String) (l : List String) :
    filterNamed n (secretFlags resolve l).args = [] := by
  induction l with
  | nil => rfl
  | cons e es ih =>
    cases hre : resolve e <;> simp [secretFlags, hre, h, ih]

@[simp] lemma filterNamed_secretFlags_self (resolve : String → Except String String)
    (l : List String) :
    filterNamed "--secret" (secretFlags resolve l).args = (secretFlags resolve l).args := by
  induction l with
  | nil => rfl
  | cons e es ih =>
    cases hre : resolve e <;> simp [secretFlags, hre, ih]

lemma secretFlags_warn_not_fixed (resolve : String → Except String String)
    (l : List String) (w : Warn) (h : ∀ m, w ≠ Warn.secretFailed m) :
    (secretFlags resolve l).warnings.count w = 0 := by
  induction l with
  | nil => rfl
  | cons e es ih =>
    cases hre : resolve e <;>
      simp [secretFlags, hre, ih, List.count_cons, h]

lemma getAttestArgs_all_attest (i : Inputs) (c : Collab) :
    ∀ t ∈ getAttestArgs i c, ∃ v, t = Tok.flag "--attest" v := by
  intro t ht
  simp only [getAttestArgs, List.mem_append] at ht
  rcases ht with (h | h) | h
  · split at h
    · simp at h; exact ⟨_, h⟩
    · split at h
      · split at h <;> (simp at h; exact ⟨_, h⟩)
      · simp at h
  · split at h
    · simp at h; exact ⟨_, h⟩
    · simp at h
  · rcases List.mem_filterMap.1 h with ⟨a, _, hfa⟩
    split at hfa
    · simp at hfa; exact ⟨_, hfa.symm⟩
    · split at hfa
      · simp at hfa; exact ⟨_, hfa.symm⟩
      · split at hfa
        · simp at hfa; exact ⟨_, hfa.symm⟩
        · simp at hfa

lemma filterNamed_of_all_attest {n : String} (h : ("--attest" == n) = false)
    {l : List Tok} (hall : ∀ t ∈ l, ∃ v, t = Tok.flag "--attest" v) :
    filterNamed n l = [] := by
  refine List.filter_eq_nil_iff.2 ?_
  intro t ht
  rcases hall t ht with ⟨v, rfl⟩
  simp [Tok.isNamed, h]

@[simp] lemma filterNamed_getAttestArgs {n : String} (h : ("--attest" == n) = false)
    (i : Inputs) (c : Collab) : filterNamed n (getAttestArgs i c) = [] :=
  filterNamed_of_all_attest h (getAttestArgs_all_attest i c)

@[simp] lemma filterNamed_attestSeg {n : String} (h : ("--attest" == n) = false)
    (i : Inputs) (c : Collab) : filterNamed n (attestSeg i c).args = [] := by
  unfold attestSeg; split <;> simp [h]

lemma gitAuthSeg_ok_cases {i : Inputs} {context : String} {c : Collab} {g : List Tok}
    (hg : gitAuthSeg i context c = Except.ok g) :
    g = [] ∨ ∃ v, c.resolveSecretString ("GIT_AUTH_TOKEN=" ++ i.githubToken) = Except.ok v ∧
      g = [Tok.flag "--secret" v] := by
  unfold gitAuthSeg at hg
  split at hg
  · cases hres : c.resolveSecretString ("GIT_AUTH_TOKEN=" ++ i.githubToken) with
    | ok v =>
      right
      refine ⟨v, rfl, ?_⟩
      rw [hres] at hg
      simp only [Except.map] at hg
      injection hg with h
      exact h.symm
    | error m =>
      rw [hres] at hg
      simp only [Except.map] at hg
      exact Except.noConfusion hg
  · left
    injection hg with h
    exact h.symm

lemma filterNamed_gitAuth_ne {n : String} (h : ("--secret" == n) = false)
    {i : Inputs} {context : String} {c : Collab} {g : List Tok}
    (hg : gitAuthSeg i context c = Except.ok g) : filterNamed n g = [] := by
  rcases gitAuthSeg_ok_cases hg with rfl | ⟨v, -, rfl⟩
  · rfl
  · simp [h]

lemma buildSeg_args (i : Inputs) (c : Collab) (g : List Tok) :
    (buildSeg i c g).args =
      [Tok.bare "build"]
      ++ pairFlags "--add-host" i.addHosts
      ++ allowArgs i
      ++ (annotationArgs i c).args
      ++ pairFlags "--build-arg" i.buildArgs
      ++ (buildContextArgs i c).args
      ++ pairFlags "--cache-from" i.cacheFrom
      ++ pairFlags "--cache-to" i.cacheTo
      ++ cgroupArgs i
      ++ (secretFlags c.resolveSecretEnv i.secretEnvs).args
      ++ fileArgs i
      ++ iidfileArgs i c
      ++ pairFlags "--label" i.labels
      ++ pairFlags "--no-cache-filter" i.noCacheFilters
      ++ pairFlags "--output" i.outputs
      ++ platformArgs i
      ++ (attestSeg i c).args
      ++ (secretFlags c.resolveSecretString i.secrets).args
      ++ (secretFlags c.resolveSecretFile i.secretFiles).args
      ++ g
      ++ shmArgs i
      ++ pairFlags "--ssh" i.ssh
      ++ pairFlags "--tag" i.tags
      ++ targetArgs i
      ++ pairFlags "--ulimit" i.ulimit := rfl

lemma buildSeg_warnings (i : Inputs) (c : Collab) (g : List Tok) :
    (buildSeg i c g).warnings =
      (annotationArgs i c).warnings
      ++ (buildContextArgs i c).warnings
      ++ (secretFlags c.resolveSecretEnv i.secretEnvs).warnings
      ++ (attestSeg i c).warnings
      ++ (secretFlags c.resolveSecretString i.secrets).warnings
      ++ (secretFlags c.resolveSecretFile i.secretFiles).warnings := rfl

lemma getBuildArgs_ok {i : Inputs} {context : String} {c : Collab} {s : Seg}
    (h : getBuildArgs i context c = Except.ok s) :
    ∃ g, gitAuthSeg i context c = Except.ok g ∧ s = buildSeg i c g := by
  cases hg : gitAuthSeg i context c with
  | ok g =>
    have h2 : (Except.ok (buildSeg i c g) : Except String Seg) = Except.ok s := by
      rw [← h]; unfold getBuildArgs; rw [hg]; rfl
    injection h2 with h3
    exact ⟨g, rfl, h3.symm⟩
  | error m =>
    have h2 : (Except.error m : Except String Seg) = Except.ok s := by
      rw [← h]; unfold getBuildArgs; rw [hg]; rfl
    exact Except.noConfusion h2

/-! Claim theorems. -/

/-- Claim C1: attestation precedence.  If the explicit provenance
configuration value is set, the attestation output is exactly one
provenance attest flag derived from the explicit value, at the head,
followed by the sbom part and the generic attests list in which every
provenance-typed entry is mapped to nothing (skipped); an explicit sbom
value likewise suppresses the sbom-typed entries (the inner condition on
`i.sbom`).  The hypothesis `hdisj` records that the external type detector
never classifies one entry as both provenance and sbom. -/
theorem attest_explicit_precedence (i : Inputs) (c : Collab)
    (hp : i.provenance ≠ "")
    (_hmem : ∃ a, a ∈ i.attests ∧ c.hasAttestationType "provenance" a = true)
    (hdisj : ∀ a ∈ i.attests,
      ¬(c.hasAttestationType "provenance" a = true ∧ c.hasAttestationType "sbom" a = true)) :
    getAttestArgs i c =
      Tok.flag "--attest" (c.resolveAttestationAttrs ("type=provenance," ++ i.provenance))
      :: ((if i.sbom ≠ "" then
            [Tok.flag "--attest" (c.resolveAttestationAttrs ("type=sbom," ++ i.sbom))]
          else [])
        ++ i.attests.filterMap (fun a =>
            if c.hasAttestationType "provenance" a = true then none
            else if c.hasAttestationType "sbom" a = true then
              (if i.sbom = "" then some (Tok.flag "--attest" a) else none)
            else some (Tok.flag "--attest" (c.resolveAttestationAttrs a)))) := by
  simp only [getAttestArgs]
  rw [if_pos hp]
  have hl : i.attests.filterMap (fun a =>
      if c.hasAttestationType "provenance" a = false ∧ c.hasAttestationType "sbom" a = false then
        some (Tok.flag "--attest" (c.resolveAttestationAttrs a))
      else if i.provenance = "" ∧ c.hasAttestationType "provenance" a = true then
        some (Tok.flag "--attest" (c.resolveProvenanceAttrs a))
      else if i.sbom = "" ∧ c.hasAttestationType "sbom" a = true then
        some (Tok.flag "--attest" a)
      else none) =
    i.attests.filterMap (fun a =>
      if c.hasAttestationType "provenance" a = true then none
      else if c.hasAttestationType "sbom" a = true then
        (if i.sbom = "" then some (Tok.flag "--attest" a) else none)
      else some (Tok.flag "--attest" (c.resolveAttestationAttrs a))) := by
    refine List.filterMap_congr ?_
    intro a ha
    cases hP : c.hasAttestationType "provenance" a with
    | true =>
      cases hS : c.hasAttestationType "sbom" a with
      | true => exact absurd ⟨hP, hS⟩ (hdisj a ha)
      | false => simp [hP, hS, hp]
    | false =>
      cases hS : c.hasAttestationType "sbom" a with
      | true => simp [hP, hS, hp]
      | false => simp [hP, hS]
  rw [hl, List.append_assoc, List.singleton_append]

/-- Claim C1 witness: explicit provenance mode=max with a generic
provenance entry mode=min yields exactly the explicit provenance flag. -/
theorem attest_explicit_precedence_witness :
    getAttestArgs i1 collab0 = [Tok.flag "--attest" "type=provenance,mode=max"] := by
  rw [attest_explicit_precedence i1 collab0 (by decide)
      ⟨"type=provenance,mode=min", by decide, by decide⟩ (by decide)]
  decide

/-- Claim C2: default provenance injection.  With no explicit provenance,
no provenance-typed entry in the attests list, a backend satisfying the
0.11.0 gate and no docker exporter combined with load, exactly one default
provenance attest flag is emitted at the head; its attributes are
mode=min,inline-only=true for a private repository and mode=max otherwise,
the unknown visibility (`repoPrivate = none`) counting as not private via
`Option.getD false`. -/
theorem attest_default_provenance (i : Inputs) (c : Collab)
    (hp : i.provenance = "")
    (hnoP : ∀ a ∈ i.attests, c.hasAttestationType "provenance" a = false)
    (hbk : c.buildkitVersionSatisfies i.builder ">=0.11.0" = true)
    (hdk : c.hasDockerExporter i.outputs i.load = false) :
    getAttestArgs i c =
      Tok.flag "--attest" ("type=provenance," ++
        (if c.repoPrivate.getD false = true then
          c.resolveProvenanceAttrs "mode=min,inline-only=true"
        else c.resolveProvenanceAttrs "mode=max"))
      :: ((if i.sbom ≠ "" then
            [Tok.flag "--attest" (c.resolveAttestationAttrs ("type=sbom," ++ i.sbom))]
          else [])
        ++ i.attests.filterMap (fun a =>
            if c.hasAttestationType "sbom" a = true then
              (if i.sbom = "" then some (Tok.flag "--attest" a) else none)
            else some (Tok.flag "--attest" (c.resolveAttestationAttrs a)))) := by
  have hne : ¬(i.provenance ≠ "") := by simp [hp]
  have hany : (i.attests.any (fun a => c.hasAttestationType "provenance" a)) = false := by
    rw [List.any_eq_false]
    intro a ha
    simp [hnoP a ha]
  simp only [getAttestArgs]
  rw [if_neg hne, if_pos (⟨hany, hbk, hdk⟩ :
    (i.attests.any (fun a => c.hasAttestationType "provenance" a)) = false ∧
    c.buildkitVersionSatisfies i.builder ">=0.11.0" = true ∧
    c.hasDockerExporter i.outputs i.load = false)]
  have hl : i.attests.filterMap (fun a =>
      if c.hasAttestationType "provenance" a = false ∧ c.hasAttestationType "sbom" a = false then
        some (Tok.flag "--attest" (c.resolveAttestationAttrs a))
      else if i.provenance = "" ∧ c.hasAttestationType "provenance" a = true then
        some (Tok.flag "--attest" (c.resolveProvenanceAttrs a))
      else if i.sbom = "" ∧ c.hasAttestationType "sbom" a = true then
        some (Tok.flag "--attest" a)
      else none) =
    i.attests.filterMap (fun a =>
      if c.hasAttestationType "sbom" a = true then
        (if i.sbom = "" then some (Tok.flag "--attest" a) else none)
      else some (Tok.flag "--attest" (c.resolveAttestationAttrs a))) := by
    refine List.filterMap_congr ?_
    intro a ha
    cases hS : c.hasAttestationType "sbom" a with
    | true => simp [hnoP a ha, hS]
    | false => simp [hnoP a ha, hS]
  rw [hl]
  cases c.repoPrivate.getD false <;> simp

/-- Claim C2 witness: private repository visibility yields the
mode=min,inline-only=true default, unknown visibility yields mode=max. -/
theorem attest_default_provenance_witness :
    getAttestArgs i0 collabPriv = [Tok.flag "--attest" "type=provenance,mode=min,inline-only=true"] ∧
    getAttestArgs i0 collab0 = [Tok.flag "--attest" "type=provenance,mode=max"] := by
  constructor
  · rw [attest_default_provenance i0 collabPriv rfl (by decide) rfl rfl]
    decide
  · rw [attest_default_provenance i0 collab0 rfl (by decide) rfl rfl]
    decide

/-- Claim C3: image-ID file decision.  In the build output, the iidfile
flag (with the resolved path) is present exactly when the outputs request
neither a local nor a tar exporter and either no platform is requested or
the frontend satisfies the 0.4.2 gate; otherwise no iidfile flag occurs
anywhere in the output. -/
theorem iidfile_decision (i : Inputs) (context : String) (c : Collab) (s : Seg)
    (h : getBuildArgs i context c = Except.ok s) :
    filterNamed "--iidfile" s.args =
      (if c.hasLocalExporter i.outputs = false ∧ c.hasTarExporter i.outputs = false ∧
          (i.platforms.length = 0 ∨ c.buildxVersionSatisfies ">=0.4.2" = true) then
        [Tok.flag "--iidfile" c.getImageIDFilePath]
      else []) := by
  rcases getBuildArgs_ok h with ⟨g, hg, rfl⟩
  have hmain : filterNamed "--iidfile" (buildSeg i c g).args =
      filterNamed "--iidfile" (iidfileArgs i c) := by
    rw [buildSeg_args]
    simp only [filterNamed_append]
    rw [filterNamed_gitAuth_ne (by decide) hg]
    simp
  rw [hmain]
  unfold iidfileArgs
  split <;> simp [*]

/-- Claim C3 witness: with empty outputs and no platforms the iidfile flag
is present in the build output of the empty configuration. -/
theorem iidfile_decision_witness :
    filterNamed "--iidfile" seg0.args = [Tok.flag "--iidfile" "/tmp/iidfile"] := by
  rw [iidfile_decision i0 "ctx" collab0 seg0 (by rfl)]
  decide

lemma count_annWarn_secretFlags (resolve : String → Except String String)
    (l : List String) :
    (secretFlags resolve l).warnings.count Warn.annotationsIgnored = 0 :=
  secretFlags_warn_not_fixed resolve l Warn.annotationsIgnored (fun m => by simp)

lemma count_annWarn_buildContextArgs (i : Inputs) (c : Collab) :
    (buildContextArgs i c).warnings.count Warn.annotationsIgnored = 0 := by
  unfold buildContextArgs
  split
  · simp
  · split
    · exact List.count_eq_zero.2 (by decide)
    · simp

lemma count_annWarn_attestSeg (i : Inputs) (c : Collab) :
    (attestSeg i c).warnings.count Warn.annotationsIgnored = 0 := by
  unfold attestSeg
  split
  · simp
  · exact List.count_eq_zero.2 (by decide)

lemma count_annWarn_annotationArgs (i : Inputs) (c : Collab) :
    (annotationArgs i c).warnings.count Warn.annotationsIgnored =
      (if c.buildxVersionSatisfies ">=0.12.0" = true then 0
       else if i.annotations.length > 0 then 1 else 0) := by
  unfold annotationArgs
  split
  · simp [*]
  · split <;> simp [*]

/-- Claim C6: annotation version gating.  When the frontend satisfies the
0.12.0 gate every annotation entry yields one annotation flag, in input
order, and the annotations-ignored warning is never issued; when the gate
fails, no annotation flag is emitted and the warning is issued exactly
once if the list is non-empty and not at all if it is empty. -/
theorem annotations_gating (i : Inputs) (context : String) (c : Collab) (s : Seg)
    (h : getBuildArgs i context c = Except.ok s) :
    filterNamed "--annotation" s.args =
      (if c.buildxVersionSatisfies ">=0.12.0" = true then
        pairFlags "--annotation" i.annotations
      else []) ∧
    s.warnings.count Warn.annotationsIgnored =
      (if c.buildxVersionSatisfies ">=0.12.0" = true then 0
       else if i.annotations.length > 0 then 1 else 0) := by
  rcases getBuildArgs_ok h with ⟨g, hg, rfl⟩
  constructor
  · rw [buildSeg_args]
    simp only [filterNamed_append]
    rw [filterNamed_gitAuth_ne (by decide) hg]
    simp
    unfold annotationArgs
    split
    · simp
    · split <;> simp
  · rw [buildSeg_warnings]
    simp only [List.count_append]
    rw [count_annWarn_secretFlags, count_annWarn_secretFlags, count_annWarn_secretFlags,
        count_annWarn_buildContextArgs, count_annWarn_attestSeg, count_annWarn_annotationArgs]
    omega

/-- Claim C6 witness: one annotation entry yields one flag and no warning
under a satisfied gate, and zero flags with one warning under a failed
gate. -/
theorem annotations_gating_witness :
    (filterNamed "--annotation" seg6a.args = [Tok.flag "--annotation" "a=b"] ∧
      seg6a.warnings.count Warn.annotationsIgnored = 0) ∧
    (filterNamed "--annotation" seg6b.args = [] ∧
      seg6b.warnings.count Warn.annotationsIgnored = 1) := by
  constructor
  · have h := annotations_gating i6 "ctx" collab0 seg6a (by rfl)
    exact ⟨by rw [h.1]; decide, by rw [h.2]; decide⟩
  · have h := annotations_gating i6 "ctx" collabOld seg6b (by rfl)
    exact ⟨by rw [h.1]; decide, by rw [h.2]; decide⟩

/-- Claim C7: order and count preservation.  For the add-hosts,
build-args, labels, tags, ssh and ulimit lists, the build output contains
exactly one flag/value pair per entry, in input order, and the rendered
token count of those flags is twice the list length. -/
theorem repeated_flags_order (i : Inputs) (context : String) (c : Collab) (s : Seg)
    (h : getBuildArgs i context c = Except.ok s) :
    (filterNamed "--add-host" s.args = pairFlags "--add-host" i.addHosts ∧
      (flatten (filterNamed "--add-host" s.args)).length = 2 * i.addHosts.length) ∧
    (filterNamed "--build-arg" s.args = pairFlags "--build-arg" i.buildArgs ∧
      (flatten (filterNamed "--build-arg" s.args)).length = 2 * i.buildArgs.length) ∧
    (filterNamed "--label" s.args = pairFlags "--label" i.labels ∧
      (flatten (filterNamed "--label" s.args)).length = 2 * i.labels.length) ∧
    (filterNamed "--tag" s.args = pairFlags "--tag" i.tags ∧
      (flatten (filterNamed "--tag" s.args)).length = 2 * i.tags.length) ∧
    (filterNamed "--ssh" s.args = pairFlags "--ssh" i.ssh ∧
      (flatten (filterNamed "--ssh" s.args)).length = 2 * i.ssh.length) ∧
    (filterNamed "--ulimit" s.args = pairFlags "--ulimit" i.ulimit ∧
      (flatten (filterNamed "--ulimit" s.args)).length = 2 * i.ulimit.length) := by
  rcases getBuildArgs_ok h with ⟨g, hg, rfl⟩
  have h1 : filterNamed "--add-host" (buildSeg i c g).args = pairFlags "--add-host" i.addHosts := by
    rw [buildSeg_args]
    simp only [filterNamed_append]
    rw [filterNamed_gitAuth_ne (by decide) hg]
    simp
  have h2 : filterNamed "--build-arg" (buildSeg i c g).args = pairFlags "--build-arg" i.buildArgs := by
    rw [buildSeg_args]
    simp only [filterNamed_append]
    rw [filterNamed_gitAuth_ne (by decide) hg]
    simp
  have h3 : filterNamed "--label" (buildSeg i c g).args = pairFlags "--label" i.labels := by
    rw [buildSeg_args]
    simp only [filterNamed_append]
    rw [filterNamed_gitAuth_ne (by decide) hg]
    simp
  have h4 : filterNamed "--tag" (buildSeg i c g).args = pairFlags "--tag" i.tags := by
    rw [buildSeg_args]
    simp only [filterNamed_append]
    rw [filterNamed_gitAuth_ne (by decide) hg]
    simp
  have h5 : filterNamed "--ssh" (buildSeg i c g).args = pairFlags "--ssh" i.ssh := by
    rw [buildSeg_args]
    simp only [filterNamed_append]
    rw [filterNamed_gitAuth_ne (by decide) hg]
    simp
  have h6 : filterNamed "--ulimit" (buildSeg i c g).args = pairFlags "--ulimit" i.ulimit := by
    rw [buildSeg_args]
    simp only [filterNamed_append]
    rw [filterNamed_gitAuth_ne (by decide) hg]
    simp
  exact ⟨⟨h1, by rw [h1, flatten_pairFlags_length]⟩,
    ⟨h2, by rw [h2, flatten_pairFlags_length]⟩,
    ⟨h3, by rw [h3, flatten_pairFlags_length]⟩,
    ⟨h4, by rw [h4, flatten_pairFlags_length]⟩,
    ⟨h5, by rw [h5, flatten_pairFlags_length]⟩,
    ⟨h6, by rw [h6, flatten_pairFlags_length]⟩⟩

/-- Claim C7 witness: a configuration with two hosts, one build arg, one
label, two tags, one ssh spec and one ulimit yields exactly the paired
flags in input order. -/
theorem repeated_flags_order_witness :
    filterNamed "--add-host" seg7.args =
      [Tok.flag "--add-host" "h1", Tok.flag "--add-host" "h2"] ∧
    filterNamed "--tag" seg7.args = [Tok.flag "--tag" "t1", Tok.flag "--tag" "t2"] ∧
    (flatten (filterNamed "--add-host" seg7.args)).length = 4 := by
  have h := repeated_flags_order i7 "ctx" collab0 seg7 (by rfl)
  exact ⟨by rw [h.1.1]; decide, by rw [h.2.2.2.1.1]; decide, by rw [h.1.2]; decide⟩

/-- Claim C4: per-entry secret resolution failure is isolated and never
fatal.  For each of the three secret channels, every resolved entry yields
exactly one secret flag and every failed entry yields exactly one warning
and is omitted (first conjunct, covering order and count); a fatal outcome
of the build phase can only originate from the synthesized git-auth-token
site, never from a list entry (second conjunct); and with two entries of
which only the second resolves, exactly one flag and one warning are
produced (third conjunct). -/
theorem secret_failure_isolated :
    (∀ (resolve : String → Except String String) (l : List String),
      (secretFlags resolve l).args =
        l.filterMap (fun e => match resolve e with
          | .ok v => some (Tok.flag "--secret" v)
          | .error _ => none) ∧
      (secretFlags resolve l).warnings =
        l.filterMap (fun e => match resolve e with
          | .ok _ => none
          | .error m => some (Warn.secretFailed m))) ∧
    (∀ (i : Inputs) (context : String) (c : Collab) (m : String),
      getBuildArgs i context c = Except.error m → gitAuthSeg i context c = Except.error m) ∧
    (∀ (resolve : String → Except String String) (e1 e2 m v : String),
      resolve e1 = Except.error m → resolve e2 = Except.ok v →
      secretFlags resolve [e1, e2] =
        { args := [Tok.flag "--secret" v], warnings := [Warn.secretFailed m] }) := by
  refine ⟨fun resolve l => ⟨secretFlags_args_eq resolve l, secretFlags_warnings_eq resolve l⟩,
    ?_, ?_⟩
  · intro i context c m h
    cases hg : gitAuthSeg i context c with
    | ok g =>
      have h2 : getBuildArgs i context c = Except.ok (buildSeg i c g) := by
        unfold getBuildArgs; rw [hg]; rfl
      rw [h2] at h
      exact Except.noConfusion h
    | error m2 =>
      have h2 : getBuildArgs i context c = Except.error m2 := by
        unfold getBuildArgs; rw [hg]; rfl
      rw [h2] at h
      injection h with h3
      exact congrArg Except.error h3
  · intro resolve e1 e2 m v h1 h2
    simp [secretFlags, h1, h2]

/-- Claim C4 witness: two secret-environment style entries where only the
second resolves produce one flag and one warning, and a failing
synthesized git-auth-token resolution is the one fatal site. -/
theorem secret_failure_isolated_witness :
    secretFlags rX ["E1", "E2"] =
      { args := [Tok.flag "--secret" "E2"], warnings := [Warn.secretFailed "boom"] } ∧
    gitAuthSeg iTok gctx collabErr = Except.error "boom" := by
  constructor
  · exact secret_failure_isolated.2.2 rX "E1" "E2" "boom" "E2" (by rfl) (by rfl)
  · exact secret_failure_isolated.2.1 iTok gctx collabErr "boom" (by rfl)

/-- Claim C5: git-auth-token injection.  The secret flags of the build
output are exactly the three resolved secret channels followed by the
synthesized GIT_AUTH_TOKEN flag, the latter present exactly when the
GitHub token is non-empty, no plain secret already encodes a
git-auth-token, and the resolved context is a same-repository git context
(it starts with the default source-control context; a context equal to it
is the special case exercised by the witness, a context pointing elsewhere
never receives the flag). -/
theorem git_auth_token_injection (i : Inputs) (context : String) (c : Collab) (s : Seg)
    (v : String)
    (h : getBuildArgs i context c = Except.ok s)
    (hres : c.resolveSecretString ("GIT_AUTH_TOKEN=" ++ i.githubToken) = Except.ok v) :
    filterNamed "--secret" s.args =
      (secretFlags c.resolveSecretEnv i.secretEnvs).args
      ++ (secretFlags c.resolveSecretString i.secrets).args
      ++ (secretFlags c.resolveSecretFile i.secretFiles).args
      ++ (if i.githubToken ≠ "" ∧ c.hasGitAuthTokenSecret i.secrets = false ∧
            strStartsWith context c.gitContext = true then
          [Tok.flag "--secret" v]
        else []) := by
  rcases getBuildArgs_ok h with ⟨g, hg, rfl⟩
  by_cases hc : (i.githubToken ≠ "" ∧ c.hasGitAuthTokenSecret i.secrets = false ∧
      strStartsWith context c.gitContext = true)
  · have hgv : g = [Tok.flag "--secret" v] := by
      unfold gitAuthSeg at hg
      rw [if_pos hc, hres] at hg
      simp only [Except.map] at hg
      injection hg with h2
      exact h2.symm
    subst hgv
    rw [if_pos hc, buildSeg_args]
    simp only [filterNamed_append]
    simp
  · have hgv : g = [] := by
      unfold gitAuthSeg at hg
      rw [if_neg hc] at hg
      injection hg with h2
      exact h2.symm
    subst hgv
    rw [if_neg hc, buildSeg_args]
    simp only [filterNamed_append]
    simp

/-- Claim C5 witness: with a context equal to the default source-control
context, a non-empty token and no duplicate, exactly the synthesized
secret flag is emitted. -/
theorem git_auth_token_injection_witness :
    filterNamed "--secret" segTok.args = [Tok.flag "--secret" "GIT_AUTH_TOKEN=tok"] := by
  rw [git_auth_token_injection iTok gctx collab0 segTok "GIT_AUTH_TOKEN=tok" (by rfl) (by rfl)]
  decide

/-- Claim C8: determinism.  The builder output is a function of the
configuration and the collaborator responses alone: two invocations with
identical configuration and identical collaborator record produce
identical output (the embedding is pure, so all version, path and context
responses are fixed by the `Collab` value). -/
theorem builder_deterministic (i1 i2 : Inputs) (c1 c2 : Collab)
    (hi : i1 = i2) (hc : c1 = c2) : getArgs i1 c1 = getArgs i2 c2 := by
  rw [hi, hc]

/-- Claim C8 witness: the empty configuration evaluated twice. -/
theorem builder_deterministic_witness : getArgs i0 collab0 = getArgs i0 collab0 :=
  builder_deterministic i0 i0 collab0 collab0 rfl rfl

/-- Claim C9: output sequence structure.  The rendered token sequence of a
successful invocation starts with the build sub-command token, ends with
the template-expanded context, and its final token groups are exactly the
common/global control flags followed by the context — so every common flag
appears after all build-specific flags. -/
theorem output_shape (i : Inputs) (c : Collab) (r : Seg)
    (h : getArgs i c = Except.ok r) :
    (flatten r.args).head? = some "build" ∧
    (flatten r.args).getLast? = some (expandContext i.context c.gitContext) ∧
    r.args.drop (r.args.length - ((getCommonArgs i c).length + 1)) =
      getCommonArgs i c ++ [Tok.bare (expandContext i.context c.gitContext)] := by
  cases hb : getBuildArgs i (expandContext i.context c.gitContext) c with
  | error m =>
    have h2 : getArgs i c = Except.error m := by
      simp only [getArgs]; rw [hb]; rfl
    rw [h2] at h
    exact Except.noConfusion h
  | ok b =>
    have h2 : (Except.ok
        { args := b.args ++ getCommonArgs i c ++ [Tok.bare (expandContext i.context c.gitContext)],
          warnings := b.warnings } : Except String Seg) = Except.ok r := by
      rw [← h]; simp only [getArgs]; rw [hb]; rfl
    injection h2 with h3
    have hargs : r.args =
        b.args ++ getCommonArgs i c ++ [Tok.bare (expandContext i.context c.gitContext)] :=
      congrArg Seg.args h3.symm
    obtain ⟨g, hg, rfl⟩ := getBuildArgs_ok hb
    refine ⟨?_, ?_, ?_⟩
    · rw [hargs, buildSeg_args]
      simp only [List.append_assoc, List.singleton_append, List.cons_append,
        flatten_cons, Tok.render, List.head?_cons]
    · rw [hargs]
      have hl : flatten ((buildSeg i c g).args ++ getCommonArgs i c ++
          [Tok.bare (expandContext i.context c.gitContext)]) =
          (flatten ((buildSeg i c g).args ++ getCommonArgs i c)) ++
            [expandContext i.context c.gitContext] := by
        rw [flatten_append]
        rfl
      rw [hl]
      exact List.getLast?_concat _
    · rw [hargs]
      have hlen : ((buildSeg i c g).args ++ getCommonArgs i c ++
          [Tok.bare (expandContext i.context c.gitContext)]).length -
          ((getCommonArgs i c).length + 1) = (buildSeg i c g).args.length := by
        simp only [List.length_append, List.length_cons, List.length_nil]
        omega
      rw [hlen, List.append_assoc, List.drop_left]

/-- Claim C9 witness: the configuration whose context references the
defaultContext placeholder. -/
theorem output_shape_witness :
    (flatten r9.args).head? = some "build" ∧
    (flatten r9.args).getLast? = some (expandContext i9.context collab0.gitContext) ∧
    r9.args.drop (r9.args.length - ((getCommonArgs i9 collab0).length + 1)) =
      getCommonArgs i9 collab0 ++ [Tok.bare (expandContext i9.context collab0.gitContext)] :=
  output_shape i9 collab0 r9 (by rfl)

/-- Claim C10: the duplicate git-auth-token check only inspects the plain
secret-string list.  In the concrete configuration `i10`, a git auth token
is supplied through the secret-environment channel (the detector itself
classifies that entry as a git-auth-token secret), the plain secrets list
is empty, the GitHub token is non-empty and the context is the default
source-control context — and the builder still injects the synthesized
flag, so the output carries two secret flags that both encode a git auth
token. -/
theorem gitauth_checks_only_plain_secrets :
    collab0.hasGitAuthTokenSecret i10.secrets = false ∧
    collab0.hasGitAuthTokenSecret i10.secretEnvs = true ∧
    getBuildArgs i10 gctx collab0 = Except.ok seg10 ∧
    filterNamed "--secret" seg10.args =
      [Tok.flag "--secret" "GIT_AUTH_TOKEN=MY_ENV", Tok.flag "--secret" "GIT_AUTH_TOKEN=ghtok"] ∧
    strStartsWith "GIT_AUTH_TOKEN=MY_ENV" "GIT_AUTH_TOKEN=" = true ∧
    strStartsWith "GIT_AUTH_TOKEN=ghtok" "GIT_AUTH_TOKEN=" = true := by
  refine ⟨rfl, rfl, rfl, by decide, rfl, rfl⟩

end BuildPushAction
